import Mathlib

/-!
Verification of the weather-app source (`src/WeatherComponent.jsx`) against its
natural-language specification.

The payload handed to the extraction functions is loosely structured JSON, so we
embed a small JavaScript value model (`JsValue`) together with the pieces of
JavaScript semantics the component relies on: truthiness, nullishness, member
and index access (which throw a `TypeError` on a nullish base, modelled with
`Except Unit`), optional chaining (which short-circuits the whole tail of the
chain when the base is nullish), `String.prototype.split`, and template-literal
stringification.  Each function of the source file is then translated
expression by expression.
-/

set_option autoImplicit false

namespace WeatherApp

/-- A JavaScript value, as far as this component observes it: `undefined`,
`null`, booleans, numbers, strings, arrays and plain objects. -/
inductive JsValue where
  | undef
  | null
  | bool (b : Bool)
  | num (n : Int)
  | str (s : String)
  | arr (elems : List JsValue)
  | obj (fields : List (String × JsValue))
deriving Repr

/-- JavaScript nullishness: `undefined` and `null` only. -/
def nullish : JsValue → Bool
  | .undef => true
  | .null => true
  | _ => false

/-- JavaScript truthiness: `undefined`, `null`, `false`, `0` and `""` are
falsy; every array and object (including `[]` and `{}`) is truthy. -/
def truthy : JsValue → Bool
  | .undef => false
  | .null => false
  | .bool b => b
  | .num n => n != 0
  | .str s => s != ""
  | .arr _ => true
  | .obj _ => true

/-- Member access `v.k`.  Throws (`TypeError`) when `v` is nullish; on an
object it yields the field's value or `undefined`; on any other non-nullish
value it yields `undefined` (none of the properties this component reads exist
on primitives). -/
def jsMem (v : JsValue) (k : String) : Except Unit JsValue :=
  match v with
  | .undef => .error ()
  | .null => .error ()
  | .obj fields => .ok ((fields.lookup k).getD .undef)
  | _ => .ok (.undef)

/-- Index access `v[i]`.  Throws when `v` is nullish; on an array it yields
the element or `undefined` out of bounds; on a string it yields the one-character
string at that position; otherwise `undefined`. -/
def jsIdx (v : JsValue) (i : Nat) : Except Unit JsValue :=
  match v with
  | .undef => .error ()
  | .null => .error ()
  | .arr xs => .ok (xs.getD i .undef)
  | .str s =>
    .ok (match s.toList.get? i with
         | some c => .str (String.singleton c)
         | none => .undef)
  | _ => .ok (.undef)

/-- Optional chaining `v?.⟨rest of chain⟩`: when `v` is nullish the whole
chain evaluates to `undefined` without touching the rest; otherwise the rest of
the chain runs on `v`. -/
def optChain (v : JsValue) (k : JsValue → Except Unit JsValue) : Except Unit JsValue :=
  if nullish v then .ok .undef else k v

/-- Exception propagation: evaluate `x` and feed its value to the rest of the
expression, or propagate the thrown exception.  (This is `Except.bind`, written
as an explicit match so that concrete evaluations unfold by `simp`.) -/
def bindE {α β : Type} (x : Except Unit α) (f : α → Except Unit β) : Except Unit β :=
  match x with
  | .ok v => f v
  | .error e => .error e

/-- Split a character list at every occurrence of the character `c`, the model
of `String.prototype.split` with a one-character separator (every `split` in
the source uses the single character `'T'`).  The result is always non-empty. -/
def splitOnChar (c : Char) : List Char → List (List Char)
  | [] => [[]]
  | d :: ds =>
    if d == c then [] :: splitOnChar c ds
    else
      match splitOnChar c ds with
      | [] => [[d]]
      | p :: ps => (d :: p) :: ps

/-- String-level wrapper for `splitOnChar`. -/
def strSplit (s : String) (c : Char) : List String :=
  (splitOnChar c s.toList).map List.asString

/-- A call `v.split('T')`.  Defined (and pure) when `v` is a string; on any
other value the call throws: on nullish values member access itself throws, and
no other value reaching a `split` call in this program has a `split` method. -/
def jsSplit (v : JsValue) (sep : Char) : Except Unit (List String) :=
  match v with
  | .str s => .ok (strSplit s sep)
  | _ => .error ()

/-- Template-literal stringification of the interpolated values this component
produces (`temps`/`pops` entries: strings or numbers in the provider payload).
Array and object stringification is shallow because no array or object is ever
interpolated on a taken branch. -/
def jsTemplate : JsValue → String
  | .str s => s
  | .num n => toString n
  | .bool b => if b then "true" else "false"
  | .null => "null"
  | .undef => "undefined"
  | .arr _ => ""
  | .obj _ => "[object Object]"

/-- Whether `pat` is a prefix of `l` (character lists). -/
def hasPrefixChars : List Char → List Char → Bool
  | _, [] => true
  | [], _ :: _ => false
  | c :: cs, d :: ds => c == d && hasPrefixChars cs ds

/-- Whether `pat` occurs as a contiguous run inside `l`. -/
def hasSubstrChars (l pat : List Char) : Bool :=
  hasPrefixChars l pat ||
    match l with
    | [] => false
    | _ :: cs => hasSubstrChars cs pat

/-- Substring containment, the model of `String.prototype.includes`. -/
def sContains (s pat : String) : Bool := hasSubstrChars s.toList pat.toList

/-- The length comparison `v.length === 0` from line 48: only arrays and
strings have a numeric `length`; on every other value `length` is `undefined`
and the strict comparison is false.  (The nullish case never arises: the source
reads `.length` only behind a `!data ||` guard.) -/
def jsLenIsZero : JsValue → Bool
  | .arr xs => xs.length == 0
  | .str s => s.length == 0
  | _ => false

/-- The length comparison `v.length < 1` from line 72: on a value without a
numeric `length` the comparison is `undefined < 1`, which is false (NaN
comparison). -/
def jsLenLtOne : JsValue → Bool
  | .arr xs => xs.length < 1
  | .str s => s.length < 1
  | _ => false

/-! ## Region registry and endpoint builder (source lines 4-13) -/

/-- `AREA_CODES` (source lines 4-9). -/
def AREA_CODES : List (String × String) :=
  [("北海道", "016000"), ("東京", "130000"), ("大阪", "270000"), ("福岡", "400000")]

/-- `generateApiEndpoint` (source lines 12-13). -/
def generateApiEndpoint (areaCode : String) : String :=
  "https://www.jma.go.jp/bosai/forecast/data/forecast/" ++ areaCode ++ ".json"

/-! ## Field normalizers (source lines 31-44) -/

/-- `getWeatherText` (source lines 31-37).  The guard
`!weatherText || typeof weatherText !== 'string'` sends every non-string, and
the empty string, to `"不明"`; then the three `includes` checks run in order,
first match winning; otherwise the text is returned unchanged. -/
def getWeatherText (weatherText : JsValue) : String :=
  match weatherText with
  | .str s =>
    if s = "" then "不明"
    else if sContains s "晴" then "晴れ"
    else if sContains s "雨" then "雨"
    else if sContains s "曇" then "曇り"
    else s
  | _ => "不明"

/-- Whether `y` is a leap year (Gregorian). -/
def isLeap (y : Nat) : Bool :=
  (y % 4 == 0 && y % 100 != 0) || y % 400 == 0

/-- Number of days in month `m` of year `y`. -/
def daysInMonth (y m : Nat) : Nat :=
  if m = 2 then (if isLeap y then 29 else 28)
  else if m = 4 ∨ m = 6 ∨ m = 9 ∨ m = 11 then 30
  else 31

/-- Whether `l` is a non-empty list of decimal digits. -/
def isDigits (l : List Char) : Bool :=
  !l.isEmpty && l.all Char.isDigit

/-- The number denoted by a list of decimal digits. -/
def digitsToNat (l : List Char) : Nat :=
  l.foldl (fun n c => n * 10 + (c.toNat - 48)) 0

/-- Parse the `YYYY-MM-DD` date portion of an ISO timestamp, returning the
day-of-month when the components are in range (ISO-format parsing rejects
out-of-range components as an invalid date). -/
def parseYMD (d : List Char) : Option Nat :=
  match splitOnChar '-' d with
  | [y, m, dd] =>
    if isDigits y && y.length == 4 && isDigits m && m.length == 2
        && isDigits dd && dd.length == 2 then
      let yn := digitsToNat y
      let mn := digitsToNat m
      let dn := digitsToNat dd
      if 1 ≤ mn && mn ≤ 12 && 1 ≤ dn && dn ≤ daysInMonth yn mn then some dn
      else none
    else none
  | _ => none

/-- Whether `t` is a valid `hh:mm` or `hh:mm:ss` time portion. -/
def validTime (t : List Char) : Bool :=
  match splitOnChar ':' t with
  | [h, m] =>
    isDigits h && h.length == 2 && isDigits m && m.length == 2
      && digitsToNat h < 24 && digitsToNat m < 60
  | [h, m, s] =>
    isDigits h && h.length == 2 && isDigits m && m.length == 2
      && isDigits s && s.length == 2
      && digitsToNat h < 24 && digitsToNat m < 60 && digitsToNat s < 60
  | _ => false

/-- Model of `new Date(s).getDate()` for the string inputs this program feeds
it: `some d` is the day-of-month of a valid ISO date or date-time string,
`none` is an invalid date (`getDate()` returns `NaN`).  JavaScript's more
lenient non-ISO parsing forms (e.g. year-only strings) are outside the model,
and the execution timezone is assumed to be one in which `getDate` of such a
timestamp returns its ISO day component (the spec flags the timezone policy as
an open question). -/
def jsDateGetDay (s : String) : Option Nat :=
  match splitOnChar 'T' s.toList with
  | [d] => parseYMD d
  | [d, t] => if validTime t then parseYMD d else none
  | _ => none

/-- `formatDate` (source lines 40-44).  A falsy argument returns `"不明"`;
otherwise `new Date(dateString).getDate()` is interpolated before `"日"`, giving
`"NaN日"` when the date is invalid.  Only strings (from `split`) and `undefined`
ever reach this function in the program; other truthy values are modelled as
invalid dates. -/
def formatDate (dateString : JsValue) : String :=
  if truthy dateString = false then "不明"
  else
    match dateString with
    | .str s =>
      match jsDateGetDay s with
      | some d => toString d ++ "日"
      | none => "NaN日"
    | _ => "NaN日"

/-! ## Weather fetcher (source lines 16-28)

The network transport is the environment, not this program, so the fetcher is
embedded as a function of the transport's outcome: the `fetch` call either
throws (network failure) or yields a response with an `ok` flag and a body
whose `json()` parse either succeeds with a payload or throws. -/

/-- Outcome of the transport layer for one request, as observed by
`fetchWeatherData`: `fail` is a `fetch` call that itself throws;
`resp ok body` is a response with the given `ok` flag whose `json()` call
yields the payload or throws. -/
inductive FetchOutcome where
  | fail
  | resp (ok : Bool) (body : Except Unit JsValue)
deriving Repr

/-- `fetchWeatherData` (source lines 16-28).  The `try` block throws on a
transport failure, on `!response.ok` (explicit `throw`), and on a `json()`
parse failure; the `catch` turns every one of these into `null`.  On success
the parsed payload is returned.  The result type `JsValue` (not `Except`)
records that no exception escapes. -/
def fetchWeatherData (areaCode : String) (outcome : FetchOutcome) : JsValue :=
  let _API_ENDPOINT := generateApiEndpoint areaCode
  match outcome with
  | .fail => .null
  | .resp ok body =>
    if ok then
      match body with
      | .ok payload => payload
      | .error _ => .null
    else .null

/-! ## Extraction logic — today summary (source lines 47-68) -/

/-- The flat display model for the today view (spec `TodaySummary`). -/
structure TodaySummary where
  date : String
  weather : String
  temperature : String
  precipitation : String
deriving Repr, DecidableEq

/-- The `try` block of `extractTodayWeather` (source lines 51-63), translated
expression by expression; `.error ()` is a thrown `TypeError`.  Each ternary
`chain ? `${chain}suffix` : '不明'` re-reads the same pure chain, so it is
evaluated once here. -/
def todayBody (data : JsValue) : Except Unit TodaySummary :=
  -- const rawDate = data[0]?.reportDatetime.split('T')[0];
  -- (`split` never returns an empty array, so `[0]` is the first piece)
  bindE (jsIdx data 0) fun e0 =>
  bindE (optChain e0 fun v =>
    bindE (jsMem v "reportDatetime") fun rd =>
    bindE (jsSplit rd 'T') fun parts =>
    .ok (.str (parts.headD ""))) fun rawDate =>
  -- const weatherText = data[0]?.timeSeries[0]?.areas[0]?.weathers[0] || '不明';
  bindE (bindE (jsIdx data 0) fun e0 =>
    optChain e0 fun v =>
    bindE (jsMem v "timeSeries") fun ts =>
    bindE (jsIdx ts 0) fun ts0 =>
    optChain ts0 fun v0 =>
    bindE (jsMem v0 "areas") fun ar =>
    bindE (jsIdx ar 0) fun a0 =>
    optChain a0 fun a =>
    bindE (jsMem a "weathers") fun ws =>
    jsIdx ws 0) fun wt =>
  let weatherText := if truthy wt then wt else .str "不明"
  -- data[1]?.timeSeries[2]?.areas[0]?.temps[1]
  bindE (bindE (jsIdx data 1) fun e1 =>
    optChain e1 fun v =>
    bindE (jsMem v "timeSeries") fun ts =>
    bindE (jsIdx ts 2) fun ts2 =>
    optChain ts2 fun v2 =>
    bindE (jsMem v2 "areas") fun ar =>
    bindE (jsIdx ar 0) fun a0 =>
    optChain a0 fun a =>
    bindE (jsMem a "temps") fun tmp =>
    jsIdx tmp 1) fun tv =>
  -- data[0]?.timeSeries[1]?.areas[0]?.pops[0]
  bindE (bindE (jsIdx data 0) fun e0 =>
    optChain e0 fun v =>
    bindE (jsMem v "timeSeries") fun ts =>
    bindE (jsIdx ts 1) fun ts1 =>
    optChain ts1 fun v1 =>
    bindE (jsMem v1 "areas") fun ar =>
    bindE (jsIdx ar 0) fun a0 =>
    optChain a0 fun a =>
    bindE (jsMem a "pops") fun pp =>
    jsIdx pp 0) fun pv =>
  .ok {
    date := formatDate rawDate
    weather := getWeatherText weatherText
    temperature := if truthy tv then jsTemplate tv ++ "℃" else "不明"
    precipitation := if truthy pv then jsTemplate pv ++ "%" else "不明" }

/-- `extractTodayWeather` (source lines 47-68): the guard
`!data || data.length === 0` returns `null` (line 48, outside the `try`), and
the `catch` turns any thrown `TypeError` into `null`. -/
def extractTodayWeather (data : JsValue) : Option TodaySummary :=
  if !truthy data || jsLenIsZero data then none
  else
    match todayBody data with
    | .ok s => some s
    | .error _ => none

/-! ## Extraction logic — three-day summary (source lines 71-93) -/

/-- The flat display model for one day of the 3-day view (spec `DaySummary`). -/
structure DaySummary where
  date : String
  weather : String
  maxTemp : String
  minTemp : String
deriving Repr, DecidableEq

/-- The arrow body of `days.slice(0, 3).map((date, index) => ...)` (source
lines 83-88).  `date.split('T')` throws when the element is not a string; the
parallel lists are indexed with the same `index`, and each ternary re-reads the
same pure chain, evaluated once here. -/
def threeDayItem (weathers maxTemps minTemps : JsValue) (index : Nat)
    (date : JsValue) : Except Unit DaySummary :=
  bindE (jsSplit date 'T') fun parts =>
  bindE (jsIdx weathers index) fun w =>
  bindE (jsIdx maxTemps index) fun mx =>
  bindE (jsIdx minTemps index) fun mn =>
  .ok {
    date := formatDate (.str (parts.headD ""))
    weather := if truthy w then getWeatherText w else "不明"
    maxTemp := if truthy mx then jsTemplate mx ++ "℃" else "不明"
    minTemp := if truthy mn then jsTemplate mn ++ "℃" else "不明" }

/-- The `map` callback applied along a list with its running index, collecting
the first thrown exception like JavaScript's `Array.prototype.map`. -/
def mapIdxE (f : Nat → JsValue → Except Unit DaySummary) :
    Nat → List JsValue → Except Unit (List DaySummary)
  | _, [] => .ok []
  | i, x :: xs =>
    bindE (f i x) fun y =>
    bindE (mapIdxE f (i + 1) xs) fun ys =>
    .ok (y :: ys)

/-- The `try` block of `extractThreeDayWeather` (source lines 74-88); the two
`return null`s on falsy `threeDayData` / falsy `threeDayData.timeSeries`
(line 76) are modelled by `Except.ok none`. -/
def threeDayBody (data : JsValue) : Except Unit (Option (List DaySummary)) :=
  bindE (jsIdx data 0) fun threeDayData =>
  if !truthy threeDayData then .ok none
  else
  -- threeDayData is truthy here, so the member accesses below cannot throw
  bindE (jsMem threeDayData "timeSeries") fun tsCheck =>
  if !truthy tsCheck then .ok none
  else
  -- const days = threeDayData.timeSeries[0]?.timeDefines || [];
  bindE (bindE (jsMem threeDayData "timeSeries") fun ts =>
    bindE (jsIdx ts 0) fun ts0 =>
    optChain ts0 fun v => jsMem v "timeDefines") fun days0 =>
  let days := if truthy days0 then days0 else .arr []
  -- const weathers = threeDayData.timeSeries[0]?.areas[0]?.weathers || [];
  bindE (bindE (jsMem threeDayData "timeSeries") fun ts =>
    bindE (jsIdx ts 0) fun ts0 =>
    optChain ts0 fun v =>
    bindE (jsMem v "areas") fun ar =>
    bindE (jsIdx ar 0) fun a0 =>
    optChain a0 fun a => jsMem a "weathers") fun weathers0 =>
  let weathers := if truthy weathers0 then weathers0 else .arr []
  -- const maxTemps = threeDayData.timeSeries[1]?.areas[0]?.temps || [];
  bindE (bindE (jsMem threeDayData "timeSeries") fun ts =>
    bindE (jsIdx ts 1) fun ts1 =>
    optChain ts1 fun v =>
    bindE (jsMem v "areas") fun ar =>
    bindE (jsIdx ar 0) fun a0 =>
    optChain a0 fun a => jsMem a "temps") fun maxTemps0 =>
  let maxTemps := if truthy maxTemps0 then maxTemps0 else .arr []
  -- const minTemps = threeDayData.timeSeries[2]?.areas[0]?.temps || [];
  bindE (bindE (jsMem threeDayData "timeSeries") fun ts =>
    bindE (jsIdx ts 2) fun ts2 =>
    optChain ts2 fun v =>
    bindE (jsMem v "areas") fun ar =>
    bindE (jsIdx ar 0) fun a0 =>
    optChain a0 fun a => jsMem a "temps") fun minTemps0 =>
  let minTemps := if truthy minTemps0 then minTemps0 else .arr []
  -- return days.slice(0, 3).map((date, index) => ...);
  match days with
  | .arr xs =>
    bindE (mapIdxE (threeDayItem weathers maxTemps minTemps) 0 (xs.take 3)) fun mapped =>
    .ok (some mapped)
  | _ =>
    -- a truthy non-array `timeDefines` value: `.slice`/`.map` throws
    .error ()

/-- `extractThreeDayWeather` (source lines 71-93): the guard
`!data || data.length < 1` returns `null` (line 72), and the `catch` turns any
thrown `TypeError` into `null`. -/
def extractThreeDayWeather (data : JsValue) : Option (List DaySummary) :=
  if !truthy data || jsLenLtOne data then none
  else
    match threeDayBody data with
    | .ok r => r
    | .error _ => none

/-! ## View state controller (source lines 96-127) -/

/-- The component state: one field per `useState` hook (source lines 97-102).
`viewMode` holds the literal strings `"today"` / `"three-day"` used by the
source. -/
structure ViewState where
  selectedArea : String
  weatherData : Option TodaySummary
  threeDayWeather : Option (List DaySummary)
  error : Option String
  isLoading : Bool
  viewMode : String
deriving Repr, DecidableEq

/-- The initial state from the `useState` initialisers (source lines 97-102). -/
def initialState : ViewState :=
  { selectedArea := "東京"
    weatherData := none
    threeDayWeather := none
    error := none
    isLoading := true
    viewMode := "today" }

/-- One completed run of the `fetchData` effect (source lines 104-127), with
the fetch result `data` as a parameter: set loading and clear the error, then
on truthy data store each non-null extraction result (note `[]` is truthy, so
an empty three-day list is stored) and set the parse-failure message only when
both extractions return null; on falsy data set the retrieval-failure message;
finally clear loading. -/
def fetchCycle (s : ViewState) (data : JsValue) : ViewState :=
  let s := { s with isLoading := true, error := none }
  let s :=
    if truthy data then
      let todayWeather := extractTodayWeather data
      let threeDayWeatherData := extractThreeDayWeather data
      let s := match todayWeather with
        | some t => { s with weatherData := some t }
        | none => s
      let s := match threeDayWeatherData with
        | some t => { s with threeDayWeather := some t }
        | none => s
      if todayWeather.isNone && threeDayWeatherData.isNone then
        { s with error := some "データの解析に失敗しました" }
      else s
    else
      { s with error := some "天気データを取得できませんでした" }
  { s with isLoading := false }

/-- The region-selection event `setSelectedArea(area)` (source line 138).
The re-fetch it triggers (the effect depends on `selectedArea`) is a separate
`fetchCycle` step. -/
def selectArea (s : ViewState) (area : String) : ViewState :=
  { s with selectedArea := area }

/-- The view-mode toggle `setViewMode(mode)` (source lines 148-149).  The
effect's dependency list is `[selectedArea]`, so no fetch runs on this
transition. -/
def setViewMode (s : ViewState) (mode : String) : ViewState :=
  { s with viewMode := mode }

/-- The states the component can reach: the initial state, then any
interleaving of completed fetch cycles (with an arbitrary fetch result),
region selections (the buttons offer exactly the registry keys) and view-mode
toggles (the buttons offer exactly the two literals). -/
inductive Reachable : ViewState → Prop where
  | init : Reachable initialState
  | fetchDone {s : ViewState} (data : JsValue) :
      Reachable s → Reachable (fetchCycle s data)
  | select {s : ViewState} (area : String)
      (h : (AREA_CODES.lookup area).isSome) :
      Reachable s → Reachable (selectArea s area)
  | toggle {s : ViewState} (mode : String)
      (h : mode = "today" ∨ mode = "three-day") :
      Reachable s → Reachable (setViewMode s mode)

/-! ## Payload builders

Families of provider payloads in the response shape of spec §6, used to state
the claims for arbitrary field values.  The builders place each value at the
exact position the source reads (or deliberately omits a part), so the theorems
below pin down which positions the extraction functions consume. -/

/-- A first report entry in the provider shape consumed by the today
extraction: a `reportDatetime`, a first time-series bucket carrying `weathers`
for the first area, and a second bucket carrying `pops`. -/
def mkEntry0 (rd : String) (weathers pops : List JsValue) : JsValue :=
  .obj [("reportDatetime", .str rd),
        ("timeSeries", .arr [
          .obj [("areas", .arr [.obj [("weathers", .arr weathers)]])],
          .obj [("areas", .arr [.obj [("pops", .arr pops)]])]])]

/-- A second report entry in the provider shape consumed by the today
extraction: its third time-series bucket carries `temps` for the first area
(the first two buckets are unread placeholders). -/
def mkEntry1 (temps : List JsValue) : JsValue :=
  .obj [("timeSeries", .arr [
          .null,
          .null,
          .obj [("areas", .arr [.obj [("temps", .arr temps)]])]])]

/-- A first report entry in the provider shape consumed by the three-day
extraction: bucket 0 carries `timeDefines` and the parallel `weathers`,
bucket 1 the max `temps`, bucket 2 the min `temps`. -/
def mkThreeDayEntryV (tds ws maxs mins : List JsValue) : JsValue :=
  .obj [("timeSeries", .arr [
          .obj [("timeDefines", .arr tds),
                ("areas", .arr [.obj [("weathers", .arr ws)]])],
          .obj [("areas", .arr [.obj [("temps", .arr maxs)]])],
          .obj [("areas", .arr [.obj [("temps", .arr mins)]])]])]

/-- `mkThreeDayEntryV` with every carried value a string, the shape of the
actual provider data. -/
def mkThreeDayEntry (tds ws maxs mins : List String) : JsValue :=
  mkThreeDayEntryV (tds.map .str) (ws.map .str) (maxs.map .str) (mins.map .str)

/-- A first report entry whose `timeSeries` has only the first bucket: the
`pops` bucket is absent, so the precipitation chain short-circuits at an
optional-chaining point instead of throwing. -/
def mkEntry0NoPops (rd : String) (weathers : List JsValue) : JsValue :=
  .obj [("reportDatetime", .str rd),
        ("timeSeries", .arr [
          .obj [("areas", .arr [.obj [("weathers", .arr weathers)]])]])]

/-- A first report entry identical to `mkEntry0` except that `reportDatetime`
is absent. -/
def mkEntry0NoDate (weathers pops : List JsValue) : JsValue :=
  .obj [("timeSeries", .arr [
          .obj [("areas", .arr [.obj [("weathers", .arr weathers)]])],
          .obj [("areas", .arr [.obj [("pops", .arr pops)]])]])]

/-! ## Spec-side description of the three-day summary (spec §4.6)

For the refinement claim about `extractThreeDayWeather` the specification's
own words are transcribed as a second definition: "Produces exactly the first
three entries (or fewer if the source lists are shorter), zipping
date/weather/max/min by index; any list shorter than the date list yields
'unknown' for the missing positions", with the date label produced by the date
normalizer on the date portion and the weather text by the weather
normalizer. -/

/-- Spec §4.6: the day summary at `index` for a timestamp `date`, zipping the
three parallel lists by index, a too-short list yielding `"不明"` at the
missing positions. -/
def specDay (ws maxs mins : List String) (index : Nat) (date : String) : DaySummary :=
  { date := formatDate (.str ((strSplit date 'T').headD ""))
    weather := (ws[index]?).elim "不明" (fun w => getWeatherText (.str w))
    maxTemp := (maxs[index]?).elim "不明" (fun t => t ++ "℃")
    minTemp := (mins[index]?).elim "不明" (fun t => t ++ "℃") }

/-- Spec §4.6: `specDay` along a list of timestamps with its running index. -/
def specThreeDayGo (ws maxs mins : List String) : Nat → List String → List DaySummary
  | _, [] => []
  | i, d :: ds => specDay ws maxs mins i d :: specThreeDayGo ws maxs mins (i + 1) ds

/-- Spec §4.6: exactly the first three entries of the date list (or fewer),
zipped with the parallel lists by index. -/
def specThreeDay (tds ws maxs mins : List String) : List DaySummary :=
  specThreeDayGo ws maxs mins 0 (tds.take 3)

/-! ## Theorems -/

/-- C5 counterexample: the claim says every text containing none of the three
glyphs is returned unchanged, but the empty string contains none of them and is
normalised to `"不明"`, not returned unchanged. -/
theorem getWeatherText_empty_string_cex :
    getWeatherText (.str "") = "不明" ∧ ("不明" : String) ≠ "" :=
  ⟨by decide, by decide⟩

/-- C5 (amended): `getWeatherText` checks substring containment in priority
order with first match winning — sun glyph, then rain glyph, then cloud glyph;
every **non-empty** text containing none of the three is returned unchanged;
missing (nullish), empty-string and non-string inputs yield `"不明"`. -/
theorem getWeatherText_classification_amended (s : String) (hs : s ≠ "") :
    getWeatherText (.str s) =
      (if sContains s "晴" then "晴れ"
       else if sContains s "雨" then "雨"
       else if sContains s "曇" then "曇り"
       else s)
    ∧ getWeatherText .undef = "不明"
    ∧ getWeatherText .null = "不明"
    ∧ getWeatherText (.num 3) = "不明"
    ∧ getWeatherText (.bool true) = "不明" := by
  refine ⟨?_, rfl, rfl, rfl, rfl⟩
  simp [getWeatherText, hs]

/-- Witness for the amended C5 theorem at a concrete glyph-bearing text. -/
theorem getWeatherText_classification_instance :
    getWeatherText (.str "晴れ時々曇り") = "晴れ" :=
  ((getWeatherText_classification_amended "晴れ時々曇り" (by decide)).1).trans (by decide)

/-- C6 counterexample: the claim says every unparseable input yields
`"不明"`, but a truthy unparseable string interpolates `NaN` and yields
`"NaN日"`. -/
theorem formatDate_unparseable_cex :
    formatDate (.str "garbage") = "NaN日" ∧ ("NaN日" : String) ≠ "不明" :=
  ⟨by decide, by decide⟩

/-- C6 (amended): `formatDate` returns the day-of-month of the parsed date
followed by `"日"` for every parseable input; it returns `"不明"` for missing
(nullish or empty, i.e. falsy) input; a truthy but unparseable input yields
`"NaN日"`. -/
theorem formatDate_day_label_amended (s : String) :
    (∀ d : Nat, jsDateGetDay s = some d → formatDate (.str s) = toString d ++ "日")
    ∧ (s ≠ "" → jsDateGetDay s = none → formatDate (.str s) = "NaN日")
    ∧ formatDate .undef = "不明"
    ∧ formatDate .null = "不明"
    ∧ formatDate (.str "") = "不明" := by
  refine ⟨?_, ?_, by decide, by decide, by decide⟩
  · intro d hd
    by_cases hs : s = ""
    · subst hs
      rw [show jsDateGetDay "" = none from by decide] at hd
      cases hd
    · simp [formatDate, truthy, hs, hd]
  · intro hs hn
    simp [formatDate, truthy, hs, hn]

/-- Witness for the amended C6 theorem at the spec's example timestamp. -/
theorem formatDate_day_label_instance :
    formatDate (.str "2024-05-03T00:00:00") = "3日" :=
  ((formatDate_day_label_amended "2024-05-03T00:00:00").1 3 (by decide)).trans (by decide)

/-- C7: for every area code, every transport outcome that is a failure —
the `fetch` call throwing, a non-success HTTP status, a body-parse failure —
collapses to the single "no data" value `null` for the caller (the result type
carries no exception, so none escapes), and a success returns the parsed
payload. -/
theorem fetchWeatherData_outcomes (areaCode : String) (payload : JsValue)
    (body : Except Unit JsValue) :
    fetchWeatherData areaCode .fail = .null
    ∧ fetchWeatherData areaCode (.resp false body) = .null
    ∧ fetchWeatherData areaCode (.resp true (.error ())) = .null
    ∧ fetchWeatherData areaCode (.resp true (.ok payload)) = payload :=
  ⟨rfl, rfl, rfl, rfl⟩

/-- C8: the view-mode toggle changes only the `viewMode` field; region, both
summaries, error and loading state are untouched (and, the effect depending
only on `selectedArea`, no fetch accompanies this transition in the model). -/
theorem setViewMode_is_frame (s : ViewState) (mode : String) :
    (setViewMode s mode).selectedArea = s.selectedArea
    ∧ (setViewMode s mode).weatherData = s.weatherData
    ∧ (setViewMode s mode).threeDayWeather = s.threeDayWeather
    ∧ (setViewMode s mode).error = s.error
    ∧ (setViewMode s mode).isLoading = s.isLoading
    ∧ (setViewMode s mode).viewMode = mode :=
  ⟨rfl, rfl, rfl, rfl, rfl, rfl⟩

/-- C4 counterexample: a reachable completed cycle — the very first fetch
resolving to the payload `[null]` — ends with the today summary populated
(all-unknown fields), the three-day summary still empty, and no error: neither
"both summaries populated" nor "error populated" holds, refuting the claimed
exactly-one-of disjunction. -/
theorem fetchCycle_partial_population_cex :
    Reachable (fetchCycle initialState (.arr [.null]))
    ∧ (fetchCycle initialState (.arr [.null])).weatherData =
        some { date := "不明", weather := "不明", temperature := "不明", precipitation := "不明" }
    ∧ (fetchCycle initialState (.arr [.null])).threeDayWeather = none
    ∧ (fetchCycle initialState (.arr [.null])).error = none :=
  ⟨Reachable.fetchDone _ Reachable.init, by decide, by decide, by decide⟩

/-- C4 (amended): when a fetch cycle completes, loading is cleared and the
error is populated exactly when the fetch yielded no (truthy) data or both
extractions returned null; each successful extraction's result is stored,
while a failed extraction leaves the previous value of that summary in place —
so a completed cycle may leave one summary populated without the other, and an
erroring cycle keeps stale summaries alongside the error. -/
theorem fetchCycle_completion_amended (s : ViewState) (data : JsValue) :
    (fetchCycle s data).isLoading = false
    ∧ (fetchCycle s data).error =
        (if truthy data then
          (if (extractTodayWeather data).isNone && (extractThreeDayWeather data).isNone then
            some "データの解析に失敗しました"
           else none)
         else some "天気データを取得できませんでした")
    ∧ (fetchCycle s data).weatherData =
        (if truthy data then (extractTodayWeather data).elim s.weatherData some
         else s.weatherData)
    ∧ (fetchCycle s data).threeDayWeather =
        (if truthy data then (extractThreeDayWeather data).elim s.threeDayWeather some
         else s.threeDayWeather)
    ∧ (fetchCycle s data).selectedArea = s.selectedArea
    ∧ (fetchCycle s data).viewMode = s.viewMode := by
  unfold fetchCycle
  cases hd : truthy data
  · simp
  · cases ht : extractTodayWeather data <;> cases h3 : extractThreeDayWeather data <;>
      simp [ht, h3]

/-- C10 counterexample: a first report entry whose `timeSeries` is present and
whose first bucket exists but lacks `timeDefines` (and `areas`) makes the
weathers chain throw, so the extraction returns null — not the empty sequence
the claim requires for a missing `timeDefines`, and not a missing-`timeSeries`
entry either. -/
theorem extractThreeDay_missing_timeDefines_cex :
    extractThreeDayWeather (.arr [.obj [("timeSeries", .arr [.obj []])]]) = none
    ∧ (none : Option (List DaySummary)) ≠ some [] :=
  ⟨by decide, by decide⟩

/-- C10 (amended): with `timeSeries` present and truthy, the extraction
returns the empty sequence when the first bucket is absent, or when
`timeDefines` is absent or empty while the bucket's `areas` chain is still
traversable; the controller stores that empty sequence as a success (no
error).  It returns null when the first entry lacks `timeSeries`, when the
first entry is falsy, and when traversal throws — e.g. a present first bucket
without `areas`. -/
theorem extractThreeDay_empty_and_null_cases_amended :
    extractThreeDayWeather (.arr [.obj [("timeSeries", .arr [])]]) = some []
    ∧ extractThreeDayWeather
        (.arr [.obj [("timeSeries", .arr [.obj [("areas", .arr [])]])]]) = some []
    ∧ extractThreeDayWeather (.arr [mkThreeDayEntry [] [] [] []]) = some []
    ∧ (fetchCycle initialState (.arr [.obj [("timeSeries", .arr [])]])).threeDayWeather = some []
    ∧ (fetchCycle initialState (.arr [.obj [("timeSeries", .arr [])]])).error = none
    ∧ extractThreeDayWeather (.arr [.obj [("reportDatetime", .str "2024-05-03")]]) = none
    ∧ extractThreeDayWeather (.arr [.null]) = none
    ∧ extractThreeDayWeather (.arr [.obj [("timeSeries", .arr [.obj []])]]) = none := by
  refine ⟨by decide, by decide, by decide, by decide, by decide, by decide, by decide, by decide⟩

/-- C9: a present but falsy raw value — empty string, numeric zero, `false`
(or a nullish element) — renders `"不明"` for the today summary's temperature
(planted at `data[1].timeSeries[2].areas[0].temps[1]`) and precipitation
(planted at `data[0].timeSeries[1].areas[0].pops[0]`), and for the three-day
weather, max and min temperatures at that position: presence is decided by
truthiness of the value, not by the field existing. -/
theorem falsy_values_render_unknown (v : JsValue) (h : truthy v = false) :
    (extractTodayWeather (.arr [mkEntry0 "2024-05-03" [.str "晴れ"] [v],
        mkEntry1 [.null, v]])).map (fun t => (t.temperature, t.precipitation)) =
      some ("不明", "不明")
    ∧ extractThreeDayWeather
        (.arr [mkThreeDayEntryV [.str "2024-05-03T00:00:00"] [v] [v] [v]]) =
      some [{ date := "3日", weather := "不明", maxTemp := "不明", minTemp := "不明" }] := by
  cases v with
  | undef => exact ⟨by decide, by decide⟩
  | null => exact ⟨by decide, by decide⟩
  | bool b =>
    cases b
    · exact ⟨by decide, by decide⟩
    · simp [truthy] at h
  | num n =>
    have hn : n = 0 := by simpa [truthy] using h
    subst hn
    exact ⟨by decide, by decide⟩
  | str s =>
    have hs : s = "" := by simpa [truthy] using h
    subst hs
    exact ⟨by decide, by decide⟩
  | arr l => simp [truthy] at h
  | obj l => simp [truthy] at h

/-- Witness for the C9 theorem at the present-but-empty string. -/
theorem falsy_values_render_unknown_instance :
    (extractTodayWeather (.arr [mkEntry0 "2024-05-03" [.str "晴れ"] [.str ""],
        mkEntry1 [.null, .str ""]])).map (fun t => (t.temperature, t.precipitation)) =
      some ("不明", "不明")
    ∧ extractThreeDayWeather
        (.arr [mkThreeDayEntryV [.str "2024-05-03T00:00:00"] [.str ""] [.str ""] [.str ""]]) =
      some [{ date := "3日", weather := "不明", maxTemp := "不明", minTemp := "不明" }] :=
  falsy_values_render_unknown (.str "") (by decide)

/-- C1: the temperature comes from the second report entry, third time-series
bucket, first area, second `temps` value (the builder plants `t` exactly there,
with a distinguishable value at index 0); and on a payload whose only entry is
a populated first report entry, the temperature is `"不明"` while date,
weather and precipitation are computed from entry 0's values. -/
theorem extractToday_temperature_indexing (rd w pop t : String)
    (hw : w ≠ "") (hp : pop ≠ "") :
    extractTodayWeather (.arr [mkEntry0 rd [.str w] [.str pop], mkEntry1 [.str "15", .str t]]) =
      some { date := formatDate (.str ((strSplit rd 'T').headD ""))
             weather := getWeatherText (.str w)
             temperature := if t = "" then "不明" else t ++ "℃"
             precipitation := pop ++ "%" }
    ∧ extractTodayWeather (.arr [mkEntry0 rd [.str w] [.str pop]]) =
      some { date := formatDate (.str ((strSplit rd 'T').headD ""))
             weather := getWeatherText (.str w)
             temperature := "不明"
             precipitation := pop ++ "%" } := by
  constructor <;>
  · simp [extractTodayWeather, todayBody, bindE, jsIdx, jsMem, jsSplit, optChain, nullish,
      truthy, jsLenIsZero, mkEntry0, mkEntry1, jsTemplate, List.lookup, hw, hp]

/-- Witness for the C1 theorem at concrete provider-like values. -/
theorem extractToday_temperature_indexing_instance :
    extractTodayWeather
        (.arr [mkEntry0 "2024-05-03T11:00:00+09:00" [.str "晴れのち曇り"] [.str "20"],
               mkEntry1 [.str "15", .str "28"]]) =
      some { date := "3日", weather := "晴れ", temperature := "28℃", precipitation := "20%" }
    ∧ extractTodayWeather
        (.arr [mkEntry0 "2024-05-03T11:00:00+09:00" [.str "晴れのち曇り"] [.str "20"]]) =
      some { date := "3日", weather := "晴れ", temperature := "不明", precipitation := "20%" } :=
  have h := extractToday_temperature_indexing "2024-05-03T11:00:00+09:00" "晴れのち曇り" "20" "28"
    (by decide) (by decide)
  ⟨h.1.trans (by decide), h.2.trans (by decide)⟩

/-- C2 counterexample: in a payload whose entries are fully populated except
that the first entry lacks `reportDatetime`, the claim requires only the date
to degrade to `"不明"`; instead `undefined.split` throws and the whole
extraction returns null. -/
theorem extractToday_missing_reportDatetime_cex :
    extractTodayWeather
        (.arr [mkEntry0NoDate [.str "晴れ"] [.str "20"], mkEntry1 [.str "15", .str "28"]]) =
      none := by decide

/-- C2 (amended): a field of the today summary degrades to `"不明"` on its own
only when its access chain meets a nullish value at an optional-chaining point
(an absent report entry, or an absent time-series bucket), and the extraction
still succeeds; but an absence between chain points — `reportDatetime` missing
on a present first entry, or `timeSeries` missing on a present entry — throws,
and the whole extraction returns null.  Null is also returned for an
empty/absent payload. -/
theorem extractToday_field_optionality_amended (rd w : String) (hw : w ≠ "") :
    extractTodayWeather (.arr [mkEntry0NoPops rd [.str w]]) =
      some { date := formatDate (.str ((strSplit rd 'T').headD ""))
             weather := getWeatherText (.str w)
             temperature := "不明"
             precipitation := "不明" }
    ∧ extractTodayWeather (.arr [mkEntry0NoDate [.str w] [.str "20"]]) = none
    ∧ extractTodayWeather (.arr [.obj [("reportDatetime", .str rd)]]) = none
    ∧ extractTodayWeather (.arr []) = none
    ∧ extractTodayWeather .null = none := by
  refine ⟨?_, ?_, ?_, by decide, by decide⟩
  · simp [extractTodayWeather, todayBody, bindE, jsIdx, jsMem, jsSplit, optChain, nullish,
      truthy, jsLenIsZero, mkEntry0NoPops, jsTemplate, List.lookup, hw]
  · simp [extractTodayWeather, todayBody, bindE, jsIdx, jsMem, jsSplit, optChain, nullish,
      truthy, jsLenIsZero, mkEntry0NoDate, jsTemplate, List.lookup, hw]
  · simp [extractTodayWeather, todayBody, bindE, jsIdx, jsMem, jsSplit, optChain, nullish,
      truthy, jsLenIsZero, jsTemplate, List.lookup]

/-- Witness for the amended C2 theorem at concrete values. -/
theorem extractToday_field_optionality_instance :
    extractTodayWeather (.arr [mkEntry0NoPops "2024-05-03T11:00:00+09:00" [.str "晴れ"]]) =
      some { date := "3日", weather := "晴れ", temperature := "不明", precipitation := "不明" } :=
  ((extractToday_field_optionality_amended "2024-05-03T11:00:00+09:00" "晴れ"
    (by decide)).1).trans (by decide)

/-- Indexing a list of wrapped strings with the array fallback `undefined`. -/
theorem getD_map_str (l : List String) (i : Nat) :
    (l.map JsValue.str).getD i .undef = (l[i]?).elim JsValue.undef JsValue.str := by
  simp only [List.getD_eq_getElem?_getD, List.getElem?_map]
  cases l[i]? <;> rfl

/-- A temperature cell of the three-day table agrees with the spec's zip: a
present (non-empty) value renders with the degree suffix, a missing position
renders `"不明"`. -/
theorem temps_field_spec (l : List String) (hl : ∀ x ∈ l, x ≠ "") (i : Nat) :
    (if truthy ((l.map JsValue.str).getD i .undef)
     then jsTemplate ((l.map JsValue.str).getD i .undef) ++ "℃" else "不明")
    = (l[i]?).elim "不明" (fun t => t ++ "℃") := by
  rw [getD_map_str]
  cases hg : l[i]? with
  | none => rfl
  | some t =>
    have ht := hl t (List.getElem?_mem hg)
    simp [truthy, jsTemplate, ht]

/-- A weather cell of the three-day table agrees with the spec's zip (no
hypothesis needed: an empty-string weather text is sent to `"不明"` by both
the truthiness guard and the normalizer). -/
theorem weather_field_spec (l : List String) (i : Nat) :
    (if truthy ((l.map JsValue.str).getD i .undef)
     then getWeatherText ((l.map JsValue.str).getD i .undef) else "不明")
    = (l[i]?).elim "不明" (fun w => getWeatherText (.str w)) := by
  rw [getD_map_str]
  cases hg : l[i]? with
  | none => rfl
  | some w =>
    by_cases hw : w = ""
    · subst hw
      simp [truthy, getWeatherText]
    · simp [truthy, hw]

/-- One step of the three-day `map` callback agrees with `specDay`. -/
theorem threeDayItem_spec (ws maxs mins : List String)
    (hmx : ∀ x ∈ maxs, x ≠ "") (hmn : ∀ x ∈ mins, x ≠ "") (i : Nat) (d : String) :
    threeDayItem (.arr (ws.map .str)) (.arr (maxs.map .str)) (.arr (mins.map .str)) i (.str d)
      = .ok (specDay ws maxs mins i d) := by
  unfold threeDayItem specDay
  simp only [jsSplit, jsIdx, bindE]
  rw [weather_field_spec, temps_field_spec maxs hmx, temps_field_spec mins hmn]

/-- The indexed `map` over a list of timestamps agrees with `specThreeDayGo`
at every starting index. -/
theorem mapIdxE_spec (ws maxs mins : List String)
    (hmx : ∀ x ∈ maxs, x ≠ "") (hmn : ∀ x ∈ mins, x ≠ "") :
    ∀ (l : List String) (i : Nat),
      mapIdxE (threeDayItem (.arr (ws.map .str)) (.arr (maxs.map .str))
          (.arr (mins.map .str))) i (l.map .str)
        = .ok (specThreeDayGo ws maxs mins i l) := by
  intro l
  induction l with
  | nil => intro i; rfl
  | cons d ds ih =>
    intro i
    simp only [List.map_cons, mapIdxE, specThreeDayGo]
    rw [threeDayItem_spec ws maxs mins hmx hmn i d, ih (i + 1)]
    rfl

/-- C3: on a payload whose first report entry is in the provider's three-day
shape, the extraction returns exactly the first three entries of the
`timeDefines` list (or fewer if that list is shorter), zipped with the
parallel weather and temperature lists by index as the spec describes — in
particular every position at which a parallel list is shorter than the date
list renders `"不明"` while earlier positions keep their real values. -/
theorem extractThreeDay_zip_spec (tds ws maxs mins : List String)
    (hmx : ∀ x ∈ maxs, x ≠ "") (hmn : ∀ x ∈ mins, x ≠ "") :
    extractThreeDayWeather (.arr [mkThreeDayEntry tds ws maxs mins]) =
      some (specThreeDay tds ws maxs mins) := by
  simp [extractThreeDayWeather, threeDayBody, mkThreeDayEntry, mkThreeDayEntryV,
    bindE, jsIdx, jsMem, optChain, nullish, truthy, jsLenLtOne, List.lookup]
  rw [← List.map_take]
  rw [mapIdxE_spec ws maxs mins hmx hmn (tds.take 3) 0]
  rfl

/-- Witness for the C3 theorem at the spec's own example: seven timestamps,
two weather texts, three max and two min temperatures — three days returned,
day 2's weather and min temperature are `"不明"`, days 0-1 keep real values. -/
theorem extractThreeDay_zip_spec_instance :
    extractThreeDayWeather (.arr [mkThreeDayEntry
        ["2024-05-03T00:00:00", "2024-05-04T00:00:00", "2024-05-05T00:00:00",
         "2024-05-06T00:00:00", "2024-05-07T00:00:00", "2024-05-08T00:00:00",
         "2024-05-09T00:00:00"]
        ["晴れ", "雨のち曇り"] ["25", "26", "27"] ["15", "16"]]) =
      some [{ date := "3日", weather := "晴れ", maxTemp := "25℃", minTemp := "15℃" },
            { date := "4日", weather := "雨", maxTemp := "26℃", minTemp := "16℃" },
            { date := "5日", weather := "不明", maxTemp := "27℃", minTemp := "不明" }] :=
  (extractThreeDay_zip_spec
      ["2024-05-03T00:00:00", "2024-05-04T00:00:00", "2024-05-05T00:00:00",
       "2024-05-06T00:00:00", "2024-05-07T00:00:00", "2024-05-08T00:00:00",
       "2024-05-09T00:00:00"]
      ["晴れ", "雨のち曇り"] ["25", "26", "27"] ["15", "16"]
      (by decide) (by decide)).trans (by decide)

end WeatherApp
